import Mathlib

/-!
Verification development for `home_installation.py`: a shallow embedding of the
kiosk installation engine (media validator, library scanner, recording
controller, playback synchronizer and installation state machine) together
with theorems settling the specification claims.

Conventions of the embedding:
* file paths, process handles and camera indices are natural-number identifiers;
* wall-clock instants are rationals (Python floats modelled exactly);
* the recordings directory is a list of `FileInfo` records carrying the
  attributes the program reads (`.mp4` extension, modification time, size,
  whether `cv2.VideoCapture` opens it, whether its first frame decodes, and
  whether probing it raises);
* external effects (launching, terminating or killing a process, `os.remove`)
  are recorded in an explicit event trace returned next to the new state;
* nondeterministic environment answers (current time, `poll()` results,
  decoder reads, device discovery) are supplied by an `Env` record.
-/

namespace HomeInstallation

/-- A pixel: one colour triple (BGR from OpenCV, RGB after conversion). -/
abbrev Pix := ℕ × ℕ × ℕ

/-- A frame: a pixel grid, rows of pixels. -/
abbrev Frame := List (List Pix)

/-- cv2.flip(frame, 1): mirror each row horizontally (line 569 / line 711). -/
def hflip (f : Frame) : Frame := f.map List.reverse

/-- cv2.resize to the fixed 1280x720 window. Frames are modelled at screen
resolution, where the resize leaves the pixel grid unchanged; resizing never
reorders columns, so it is orientation-neutral for the mirroring claims. -/
def resize (f : Frame) : Frame := f

/-- cv2.cvtColor(frame, cv2.COLOR_BGR2RGB): swap first and third channel. -/
def cvtColor_BGR2RGB (f : Frame) : Frame :=
  f.map (List.map (fun p => (p.2.2, p.2.1, p.1)))

/-- np.transpose(frame_rgb, (1, 0, 2)): swap the row/column axes. -/
def transposeWH (f : Frame) : Frame := List.transpose f

/-- The post-processing shared by `get_camera_frame_for_display`
(lines 570-578) and `get_current_playback_frame` (lines 713-720) after the
horizontal flip: resize to the window, BGR to RGB, transpose for pygame. -/
def postprocess (f : Frame) : Frame := transposeWH (cvtColor_BGR2RGB (resize f))

/-- One candidate file of the recordings store, with the attributes
`home_installation.py` reads from it. -/
structure FileInfo where
  /-- path identifier (the full path string) -/
  name : ℕ
  /-- file.endswith('.mp4') -/
  is_mp4 : Bool
  /-- os.path.getmtime -/
  mtime : ℕ
  /-- os.path.getsize, in bytes -/
  size : ℕ
  /-- cv2.VideoCapture(path).isOpened() -/
  opens : Bool
  /-- cap.read() returns ret and a non-None first frame -/
  first_frame_ok : Bool
  /-- probing the file raises an exception (missing file, decoder error) -/
  probe_raises : Bool
deriving DecidableEq, Repr

/-- is_video_file_valid (lines 344-365): size at least 1000 bytes, the file
opens as a container, and the first frame decodes; any exception during the
probe degrades to False via the bare except clause. -/
def is_video_file_valid (f : FileInfo) : Bool :=
  if f.probe_raises then false
  else if f.size < 1000 then false
  else if !f.opens then false
  else f.first_frame_ok

/-- os.path.getsize: reads the store, never modifies it. -/
def fs_getsize (store : List FileInfo) (f : FileInfo) : ℕ × List FileInfo :=
  (f.size, store)

/-- cv2.VideoCapture(path).isOpened(): a read-only probe of the store. -/
def cv_open (store : List FileInfo) (f : FileInfo) : Bool × List FileInfo :=
  (f.opens, store)

/-- cap.read() of the first frame followed by cap.release(): read-only. -/
def cv_read_first (store : List FileInfo) (f : FileInfo) : Bool × List FileInfo :=
  (f.first_frame_ok, store)

/-- is_video_file_valid with the recordings store threaded through each of its
probe steps (getsize, open, first read), mirroring lines 344-365; an exception
anywhere in the try block returns False. -/
def is_video_file_valid_probe (store : List FileInfo) (f : FileInfo) :
    Bool × List FileInfo :=
  if f.probe_raises then (false, store)
  else
    match fs_getsize store f with
    | (sz, store1) =>
      if sz < 1000 then (false, store1)
      else
        match cv_open store1 f with
        | (opened, store2) =>
          if !opened then (false, store2)
          else
            match cv_read_first store2 f with
            | (ret, store3) => (ret, store3)

/-- The collection loop of scan_recorded_videos (lines 318-332): keep the
`.mp4` files that validate. -/
def scan_collect : List FileInfo → List FileInfo
  | [] => []
  | f :: rest =>
    if f.is_mp4 then
      if is_video_file_valid f then f :: scan_collect rest
      else scan_collect rest
    else scan_collect rest

/-- The files os.remove is called on during a scan: `.mp4` files that fail
validation (lines 327-332). -/
def scan_deletes : List FileInfo → List FileInfo
  | [] => []
  | f :: rest =>
    if f.is_mp4 && !is_video_file_valid f then f :: scan_deletes rest
    else scan_deletes rest

/-- The order of `video_files.sort(reverse=True)` on (mtime, path) tuples
(line 335): descending lexicographic, newest modification time first. -/
def newer_first (a b : FileInfo) : Prop :=
  b.mtime < a.mtime ∨ (a.mtime = b.mtime ∧ b.name ≤ a.name)

instance : DecidableRel newer_first := fun a b => by
  unfold newer_first; infer_instance

instance : IsTotal FileInfo newer_first :=
  ⟨by intro a b; unfold newer_first; omega⟩

instance : IsTrans FileInfo newer_first :=
  ⟨by intro a b c; unfold newer_first; omega⟩

/-- scan_recorded_videos (lines 315-342): first component is the sorted list
of surviving entries (newest first), second component is the store after the
destructive cleanup (invalid `.mp4` files removed from disk). -/
def scan_recorded_videos (store : List FileInfo) :
    List FileInfo × List FileInfo :=
  (List.insertionSort newer_first (scan_collect store),
   store.filter (fun f => !(f.is_mp4 && !is_video_file_valid f)))

/-- Find a file of the store by its path (os.path.exists plus the stat and
decode probes all address the file through its path). -/
def lookup_file (store : List FileInfo) (p : ℕ) : Option FileInfo :=
  store.find? (fun f => f.name == p)

/-- The installation phases (class State, lines 17-21). -/
inductive State
  | IDLE
  | PROMPT
  | RECORDING
  | THANKYOU
deriving DecidableEq, Repr

/-- The values self.recording_status ranges over (the status strings of the
source, abstracted to their meaning). -/
inductive RecStatus
  | Ready
  | NoCameraAvailable
  | RecordingWithAudio (p : ℕ)
  | FfmpegRequired
  | Saved (p : ℕ)
  | Corrupt
  | TooSmall
  | NoFileProduced
deriving DecidableEq, Repr

/-- The values self.camera_status ranges over. -/
inductive CamStatus
  | NotYetSetUp
  | Active (i : ℕ)
  | NoCameraFound
deriving DecidableEq, Repr

/-- An open cv2.VideoCapture decode stream: its source path and the current
frame position (CAP_PROP_POS_FRAMES). -/
structure Cap where
  path : ℕ
  pos : ℕ
deriving DecidableEq, Repr

/-- External side effects of one operation, in order of occurrence. -/
inductive Event
  /-- subprocess.Popen: a new external process is launched -/
  | popen (h : ℕ)
  /-- process.terminate(): graceful termination signal -/
  | terminate (h : ℕ)
  /-- process.kill(): forced termination -/
  | kill (h : ℕ)
  /-- os.remove(path) -/
  | remove (p : ℕ)
deriving DecidableEq, Repr

/-- The mutable installation state: the fields of HomeInstallation that the
engine reads and writes (lines 36-54 and 90-93), plus the recordings store
itself. Fields that only feed the excluded renderer (pygame surfaces, fonts,
the custom prompt/timer/thankyou animation caps) are omitted. -/
structure Sys where
  current_state : State
  state_start_time : ℚ
  can_finish_early : Bool
  camera : Option ℕ
  camera_status : CamStatus
  recording_process : Option ℕ
  current_recording_path : Option ℕ
  recording_status : RecStatus
  /-- the recordings directory on disk -/
  store : List FileInfo
  recorded_videos : List ℕ
  current_playback_index : ℕ
  current_playback_video : Option ℕ
  playback_cap : Option Cap
  audio_process : Option ℕ
  video_start_time : Option ℚ
  video_fps : ℚ
  switching_video : Bool
  last_playback_frame : Option Frame
deriving DecidableEq, Repr

/-- Environment answers for one operation or one polling tick: wall-clock
time, device discovery, process liveness polls and decoder reads. -/
structure Env where
  /-- time.time() -/
  now : ℚ
  /-- the first camera index that opens and yields a frame, if any -/
  camera_found : Option ℕ
  /-- the fresh timestamped recordings/response path for this recording -/
  timestamp_path : ℕ
  /-- handle of the ffmpeg capture process Popen returns -/
  ffmpeg_handle : ℕ
  /-- recording_process.poll() is None after the 2 second grace sleep -/
  ffmpeg_survives_grace : Bool
  /-- recording_process.communicate(timeout=10) returns within the bound -/
  rec_graceful_exit : Bool
  /-- handle of the ffplay audio process Popen returns -/
  audio_handle : ℕ
  /-- audio_process.poll() is None after the 1 second startup sleep -/
  audio_starts : Bool
  /-- audio_process.poll() is not None for a handle (playback finished) -/
  audio_exited : ℕ → Bool
  /-- audio_process.wait(timeout=1) succeeds inside stop_current_playback -/
  audio_wait_ok : Bool
  /-- cap.get(cv2.CAP_PROP_FPS) for a path -/
  container_fps : ℕ → ℚ
  /-- cap.read() result for a path at a frame position; none at end of stream -/
  read_frame : ℕ → ℕ → Option Frame
  /-- camera.read() for the live preview -/
  camera_read : Option Frame

/-- Configured durations (lines 26-28). -/
def RECORDING_TIME : ℚ := 30

/-- Prompt phase duration (line 27). -/
def PROMPT_TIME : ℚ := 3

/-- Thank-you phase duration (line 28). -/
def THANKYOU_TIME : ℚ := 2

/-- setup_camera (lines 367-409): keep an already-open camera, else try the
indices until one opens and reads. -/
def setup_camera (s : Sys) (env : Env) : Bool × Sys :=
  if s.camera.isSome then (true, s)
  else
    match env.camera_found with
    | some i => (true, { s with camera := some i, camera_status := CamStatus.Active i })
    | none => (false, { s with camera_status := CamStatus.NoCameraFound })

/-- start_ffmpeg_recording (lines 440-492): launch the capture process, sleep
the grace interval, report success iff poll() is still None. On failure the
dead Popen object is left in self.recording_process. -/
def start_ffmpeg_recording (s : Sys) (env : Env) : Bool × Sys × List Event :=
  let s1 := { s with recording_process := some env.ffmpeg_handle }
  (env.ffmpeg_survives_grace, s1, [Event.popen env.ffmpeg_handle])

/-- start_recording (lines 411-438): set up the camera, pick a fresh
timestamped target path, launch ffmpeg; on success set the early-finish flag.
Note no check of self.recording_process happens anywhere in this function. -/
def start_recording (s : Sys) (env : Env) : Bool × Sys × List Event :=
  match setup_camera s env with
  | (false, s1) =>
    (false, { s1 with recording_status := RecStatus.NoCameraAvailable }, [])
  | (true, s1) =>
    let s2 := { s1 with current_recording_path := some env.timestamp_path }
    match start_ffmpeg_recording s2 env with
    | (true, s3, evs) =>
      (true, { s3 with
                recording_status := RecStatus.RecordingWithAudio env.timestamp_path,
                can_finish_early := true }, evs)
    | (false, s3, evs) =>
      (false, { s3 with recording_status := RecStatus.FfmpegRequired }, evs)

/-- stop_recording (lines 494-558): clear the early-finish flag, terminate the
capture process (forced kill if the 10 second graceful wait expires), then
classify the output file: Saved (plus a library rescan), Corrupt (file
removed), TooSmall (file removed) or NoFileProduced; finally clear the target
path. -/
def stop_recording (s : Sys) (env : Env) : Sys × List Event :=
  let s0 := { s with can_finish_early := false }
  let stopped :=
    match s0.recording_process with
    | some h =>
      if env.rec_graceful_exit then
        ({ s0 with recording_process := none }, [Event.terminate h])
      else
        ({ s0 with recording_process := none }, [Event.terminate h, Event.kill h])
    | none => (s0, ([] : List Event))
  match stopped with
  | (s1, evs1) =>
    match s1.current_recording_path with
    | some p =>
      match lookup_file s1.store p with
      | some f =>
        if 1000 < f.size then
          if is_video_file_valid f then
            match scan_recorded_videos s1.store with
            | (vids, store2) =>
              ({ s1 with
                  recording_status := RecStatus.Saved p,
                  recorded_videos := vids.map FileInfo.name,
                  store := store2,
                  current_recording_path := none },
               evs1 ++ (scan_deletes s1.store).map (fun g => Event.remove g.name))
          else
            ({ s1 with
                recording_status := RecStatus.Corrupt,
                store := s1.store.filter (fun g => !(g.name == p)),
                current_recording_path := none },
             evs1 ++ [Event.remove p])
        else
          ({ s1 with
              recording_status := RecStatus.TooSmall,
              store := s1.store.filter (fun g => !(g.name == p)),
              current_recording_path := none },
           evs1 ++ [Event.remove p])
      | none =>
        ({ s1 with recording_status := RecStatus.NoFileProduced,
                   current_recording_path := none }, evs1)
    | none =>
      ({ s1 with recording_status := RecStatus.NoFileProduced,
                 current_recording_path := none }, evs1)

/-- stop_current_playback (lines 663-681): release the decode stream,
terminate the audio channel (kill on a failed 1 second wait), clear the
session path and timestamp. -/
def stop_current_playback (s : Sys) (env : Env) : Sys × List Event :=
  let s1 := { s with playback_cap := none }
  match s1.audio_process with
  | some h =>
    ({ s1 with audio_process := none,
               current_playback_video := none,
               video_start_time := none },
     if env.audio_wait_ok then [Event.terminate h]
     else [Event.terminate h, Event.kill h])
  | none =>
    ({ s1 with current_playback_video := none, video_start_time := none }, [])

/-- Python int() applied to a rational: truncation toward zero. -/
def pyint (q : ℚ) : ℤ := if 0 ≤ q then ⌊q⌋ else ⌈q⌉

/-- target_frame of get_current_playback_frame (lines 696-697):
int(elapsed_time * video_fps). -/
def playback_target_frame (now start fps : ℚ) : ℤ := pyint ((now - start) * fps)

/-- The three branches of the sync decision (lines 703-706). -/
inductive FrameAction
  /-- seek to the target position, then read there -/
  | seekRead (target : ℤ)
  /-- return the cached last decoded frame without reading -/
  | returnCached
  /-- read the next frame at the current position -/
  | readNext
deriving DecidableEq, Repr

/-- The sync decision of get_current_playback_frame (lines 703-706). -/
def playback_frame_action (target current : ℤ) : FrameAction :=
  if target > current + 5 then FrameAction.seekRead target
  else if target < current - 1 then FrameAction.returnCached
  else FrameAction.readNext

/-- start_video_playback (lines 598-661): validate the file, stop any current
playback, open the decode stream, read the container frame rate (default 30
when it reports 0), launch the ffplay audio channel (dropped again if it dies
within the startup second), record the start timestamp and the current path. -/
def start_video_playback (s : Sys) (p : ℕ) (env : Env) :
    Bool × Sys × List Event :=
  match lookup_file s.store p with
  | none => (false, s, [])
  | some f =>
    if !is_video_file_valid f then (false, s, [])
    else
      match stop_current_playback s env with
      | (s1, evs1) =>
        let s2 := { s1 with playback_cap := some ⟨p, 0⟩ }
        if !f.opens then (false, s2, evs1)
        else
          let fps := env.container_fps p
          let s3 := { s2 with video_fps := if fps = 0 then 30 else fps }
          let s4 :=
            if env.audio_starts then { s3 with audio_process := some env.audio_handle }
            else { s3 with audio_process := none }
          (true,
           { s4 with video_start_time := some env.now,
                     current_playback_video := some p },
           evs1 ++ [Event.popen env.audio_handle])

/-- switch_to_next_video (lines 732-750): guarded by the library being
non-empty and the switching flag being clear; sets the flag, stops playback,
advances the index modulo the library length, clears the flag. -/
def switch_to_next_video (s : Sys) (env : Env) : Sys × List Event :=
  if s.recorded_videos.isEmpty || s.switching_video then (s, [])
  else
    let s1 := { s with switching_video := true }
    match stop_current_playback s1 env with
    | (s2, evs) =>
      (({ s2 with
           current_playback_index :=
             (s2.current_playback_index + 1) % s2.recorded_videos.length,
           switching_video := false }), evs)

/-- check_if_video_ended (lines 752-759): when the audio process has exited on
its own, advance to the next video. -/
def check_if_video_ended (s : Sys) (env : Env) : Bool × Sys × List Event :=
  match s.audio_process with
  | some h =>
    if env.audio_exited h then
      match switch_to_next_video s env with
      | (s1, evs) => (true, s1, evs)
    else (false, s, [])
  | none => (false, s, [])

/-- cap.read() at a given position inside get_current_playback_frame (lines
708-728): on success advance the stream, flip, post-process and cache the
frame; at end of stream switch to the next video and return none. -/
def read_and_return (s : Sys) (p pos : ℕ) (env : Env) (evs : List Event) :
    Option Frame × Sys × List Event :=
  match env.read_frame p pos with
  | some decoded =>
    let outf := postprocess (hflip decoded)
    (some outf,
     { s with playback_cap := some ⟨p, pos + 1⟩,
              last_playback_frame := some outf },
     evs)
  | none =>
    match switch_to_next_video s env with
    | (s1, evs1) => (none, s1, evs ++ evs1)

/-- Lines 694-730 of get_current_playback_frame: with an open stream and a
start timestamp, compute the target frame, apply the sync decision, and read,
return-cached or seek accordingly. -/
def get_playback_frame_core (s : Sys) (env : Env) (evs : List Event) :
    Option Frame × Sys × List Event :=
  match s.playback_cap, s.video_start_time with
  | some cap, some start =>
    let target := playback_target_frame env.now start s.video_fps
    match playback_frame_action target (cap.pos : ℤ) with
    | FrameAction.returnCached => (s.last_playback_frame, s, evs)
    | FrameAction.seekRead t =>
      read_and_return { s with playback_cap := some ⟨cap.path, t.toNat⟩ }
        cap.path t.toNat env evs
    | FrameAction.readNext => read_and_return s cap.path cap.pos env evs
  | _, _ => (none, s, evs)

/-- get_current_playback_frame (lines 683-730): nothing while the library is
empty or a switch is in flight; start the video at the current index when none
is playing; then fetch the synchronized frame. -/
def get_current_playback_frame (s : Sys) (env : Env) :
    Option Frame × Sys × List Event :=
  if s.recorded_videos.isEmpty || s.switching_video then (none, s, [])
  else if s.current_playback_video.isNone then
    match start_video_playback s
        (s.recorded_videos.getD s.current_playback_index 0) env with
    | (false, s1, evs1) => (none, s1, evs1)
    | (true, s1, evs1) => get_playback_frame_core s1 env evs1
  else get_playback_frame_core s env []

/-- get_camera_frame_for_display (lines 560-584): live preview frame, flipped
horizontally for the mirror effect, then the shared post-processing. -/
def get_camera_frame_for_display (s : Sys) (env : Env) : Option Frame :=
  if s.camera.isNone then none
  else
    match env.camera_read with
    | some f => some (postprocess (hflip f))
    | none => none

/-- The playback-relevant part of one render tick in the IDLE state (lines
808-813): check_if_video_ended, then get_current_playback_frame. -/
def idle_tick (s : Sys) (env : Env) : Option Frame × Sys × List Event :=
  match check_if_video_ended s env with
  | (_, s1, evs1) =>
    match get_current_playback_frame s1 env with
    | (fr, s2, evs2) => (fr, s2, evs1 ++ evs2)

/-- The phase successor implemented by advance_state (lines 778-787). -/
def next_state : State → State
  | State.IDLE => State.PROMPT
  | State.PROMPT => State.RECORDING
  | State.RECORDING => State.THANKYOU
  | State.THANKYOU => State.IDLE

/-- advance_state (lines 761-791): stop idle playback when leaving IDLE, take
the single cycle edge (starting the recording on entry to RECORDING, stopping
it on entry to THANKYOU), and stamp the phase entry time. -/
def advance_state (s : Sys) (env : Env) : Sys × List Event :=
  let head :=
    if s.current_state = State.IDLE then stop_current_playback s env
    else (s, [])
  match head with
  | (s1, evs1) =>
    let body :=
      match s1.current_state with
      | State.IDLE => ({ s1 with current_state := State.PROMPT }, ([] : List Event))
      | State.PROMPT =>
        match start_recording { s1 with current_state := State.RECORDING } env with
        | (_, s2, evs2) => (s2, evs2)
      | State.RECORDING =>
        stop_recording { s1 with current_state := State.THANKYOU } env
      | State.THANKYOU => ({ s1 with current_state := State.IDLE }, ([] : List Event))
    match body with
    | (s2, evs2) => ({ s2 with state_start_time := env.now }, evs1 ++ evs2)

/-- check_state_timeout (lines 793-802): auto-advance a timed phase once its
configured duration has elapsed; IDLE has no timeout. -/
def check_state_timeout (s : Sys) (env : Env) : Sys × List Event :=
  let elapsed := env.now - s.state_start_time
  if s.current_state = State.PROMPT ∧ PROMPT_TIME ≤ elapsed then
    advance_state s env
  else if s.current_state = State.RECORDING ∧ RECORDING_TIME ≤ elapsed then
    advance_state s env
  else if s.current_state = State.THANKYOU ∧ THANKYOU_TIME ≤ elapsed then
    advance_state s env
  else (s, [])

/-- The manual control keys handle_events dispatches on (lines 1020-1042). -/
inductive Key
  | SPACE
  | K_r
  | ESCAPE
deriving DecidableEq, Repr

/-- One KEYDOWN event of handle_events (lines 1025-1041): SPACE leaves IDLE or
early-finishes RECORDING, K_r stops a live recording and forces IDLE, ESCAPE
quits. The Bool is the loop-continuation flag. -/
def handle_key (s : Sys) (env : Env) : Key → Bool × Sys × List Event
  | Key.SPACE =>
    if s.current_state = State.IDLE then
      match advance_state s env with
      | (s1, evs) => (true, s1, evs)
    else if s.current_state = State.RECORDING ∧ s.can_finish_early then
      match advance_state s env with
      | (s1, evs) => (true, s1, evs)
    else (true, s, [])
  | Key.K_r =>
    let head :=
      if s.recording_process.isSome then stop_recording s env else (s, [])
    match head with
    | (s1, evs1) =>
      (true,
       { s1 with current_state := State.IDLE,
                 state_start_time := env.now,
                 can_finish_early := false },
       evs1)
  | Key.ESCAPE => (false, s, [])

/-- The phase visited after k advances from IDLE, for k in 0..3. -/
def phase_cycle : ℕ → State
  | 0 => State.IDLE
  | 1 => State.PROMPT
  | 2 => State.RECORDING
  | 3 => State.THANKYOU
  | _ + 4 => State.IDLE

/-!
Concrete base states for counterexamples and witnesses.
-/

attribute [ext] Sys

/-- The freshly initialized installation state (lines 36-54 and 90-93). -/
def sys0 : Sys :=
  { current_state := State.IDLE, state_start_time := 0,
    can_finish_early := false, camera := none,
    camera_status := CamStatus.NotYetSetUp, recording_process := none,
    current_recording_path := none, recording_status := RecStatus.Ready,
    store := [], recorded_videos := [], current_playback_index := 0,
    current_playback_video := none, playback_cap := none,
    audio_process := none, video_start_time := none, video_fps := 30,
    switching_video := false, last_playback_frame := none }

/-- A neutral environment for concrete evaluations. -/
def env0 : Env :=
  { now := 0, camera_found := none, timestamp_path := 0, ffmpeg_handle := 0,
    ffmpeg_survives_grace := false, rec_graceful_exit := true,
    audio_handle := 0, audio_starts := false, audio_exited := fun _ => false,
    audio_wait_ok := true, container_fps := fun _ => 30,
    read_frame := fun _ _ => none, camera_read := none }

/-- A finalized recording of exactly 1000 bytes whose first frame decodes. -/
def C10_file : FileInfo := ⟨100, true, 5, 1000, true, true, false⟩

/-- The state at the end of a recording that produced C10_file. -/
def C10_s : Sys :=
  { sys0 with current_state := State.THANKYOU, camera := some 0,
              camera_status := CamStatus.Active 0,
              recording_process := some 7,
              current_recording_path := some 100,
              recording_status := RecStatus.RecordingWithAudio 100,
              store := [C10_file] }

/-- A state whose recording session is Running: live ffmpeg handle 7 writing
to path 50. -/
def C1_s : Sys :=
  { sys0 with current_state := State.RECORDING, camera := some 0,
              camera_status := CamStatus.Active 0,
              recording_process := some 7,
              current_recording_path := some 50,
              recording_status := RecStatus.RecordingWithAudio 50,
              can_finish_early := true }

/-- An environment in which the second launch succeeds: fresh timestamped
path 51, new ffmpeg handle 8 surviving the grace interval. -/
def C1_env : Env :=
  { env0 with timestamp_path := 51, ffmpeg_handle := 8,
              ffmpeg_survives_grace := true }

/-- A state in the IDLE phase with a playback session in flight: decode stream
open on path 40 and audio channel handle 5 live. -/
def C3_s : Sys :=
  { sys0 with recorded_videos := [40],
              store := [⟨40, true, 1, 2000, true, true, false⟩],
              current_playback_video := some 40,
              playback_cap := some ⟨40, 5⟩,
              audio_process := some 5,
              video_start_time := some 0 }

/-- A state playing stored video 10 with the decoder at frame 0 and the
session started at time 0. -/
def C9_s : Sys :=
  { sys0 with recorded_videos := [10],
              store := [⟨10, true, 1, 2000, true, true, false⟩],
              current_playback_video := some 10,
              playback_cap := some ⟨10, 0⟩,
              audio_process := some 5,
              video_start_time := some 0 }

/-- An environment in which reading stored video 10 at frame 0 decodes an
asymmetric two-pixel frame. -/
def C9_env : Env :=
  { env0 with
      read_frame := fun p pos =>
        if p = 10 ∧ pos = 0 then some [[(1, 2, 3), (4, 5, 6)]] else none }

/-!
Helper lemmas about the operations.
-/

/-- stop_current_playback characterized: the four session fields are cleared,
nothing else changes, and the emitted events depend only on the audio handle. -/
theorem stop_current_playback_eq (s : Sys) (env : Env) :
    stop_current_playback s env =
      ({ s with playback_cap := none, audio_process := none,
                current_playback_video := none, video_start_time := none },
       match s.audio_process with
       | some h =>
         if env.audio_wait_ok then [Event.terminate h]
         else [Event.terminate h, Event.kill h]
       | none => []) := by
  unfold stop_current_playback
  cases h : s.audio_process <;> simp [h]

/-- setup_camera never touches the phase. -/
theorem setup_camera_current_state (s : Sys) (env : Env) :
    ((setup_camera s env).2).current_state = s.current_state := by
  unfold setup_camera
  split
  · rfl
  · cases env.camera_found <;> simp

/-- start_recording never touches the phase. -/
theorem start_recording_current_state (s : Sys) (env : Env) :
    ((start_recording s env).2.1).current_state = s.current_state := by
  unfold start_recording start_ffmpeg_recording
  have h := setup_camera_current_state s env
  rcases hsc : setup_camera s env with ⟨b, s1⟩
  rw [hsc] at h
  cases b
  · simp_all
  · simp_all
    cases env.ffmpeg_survives_grace <;> simp_all

/-- stop_recording never touches the phase. -/
theorem stop_recording_current_state (s : Sys) (env : Env) :
    ((stop_recording s env).1).current_state = s.current_state := by
  unfold stop_recording
  cases hrp : s.recording_process <;> simp only [hrp] <;>
    (repeat' split) <;> simp

/-- stop_recording never touches the playback audio channel. -/
theorem stop_recording_audio_process (s : Sys) (env : Env) :
    ((stop_recording s env).1).audio_process = s.audio_process := by
  unfold stop_recording
  cases hrp : s.recording_process <;> simp only [hrp] <;>
    (repeat' split) <;> simp

/-- stop_recording never touches the playback decode stream. -/
theorem stop_recording_playback_cap (s : Sys) (env : Env) :
    ((stop_recording s env).1).playback_cap = s.playback_cap := by
  unfold stop_recording
  cases hrp : s.recording_process <;> simp only [hrp] <;>
    (repeat' split) <;> simp

/-- stop_recording never touches the playback session path. -/
theorem stop_recording_playback_video (s : Sys) (env : Env) :
    ((stop_recording s env).1).current_playback_video =
      s.current_playback_video := by
  unfold stop_recording
  cases hrp : s.recording_process <;> simp only [hrp] <;>
    (repeat' split) <;> simp

/-- stop_recording always releases the capture handle. -/
theorem stop_recording_process_none (s : Sys) (env : Env) :
    ((stop_recording s env).1).recording_process = none := by
  unfold stop_recording
  cases hrp : s.recording_process <;> simp only [hrp] <;>
    (repeat' split) <;> simp

/-- stop_recording always clears the early-finish flag. -/
theorem stop_recording_can_finish_early (s : Sys) (env : Env) :
    ((stop_recording s env).1).can_finish_early = false := by
  unfold stop_recording
  cases hrp : s.recording_process <;> simp only [hrp] <;>
    (repeat' split) <;> simp

/-- stop_recording sends the graceful termination signal to a live capture
process: terminate appears in the event trace. -/
theorem stop_recording_terminates (s : Sys) (env : Env) (h : ℕ)
    (hrp : s.recording_process = some h) :
    Event.terminate h ∈ (stop_recording s env).2 := by
  unfold stop_recording
  simp only [hrp]
  (repeat' split) <;> simp

/-!
Claim C2: the phase cycle.
-/

/-- advance_state takes exactly the next_state edge on the phase, whatever the
rest of the state and environment are. -/
theorem advance_state_current_state (s : Sys) (env : Env) :
    ((advance_state s env).1).current_state = next_state s.current_state := by
  unfold advance_state
  cases hcs : s.current_state <;>
    simp [hcs, stop_current_playback_eq, next_state,
      start_recording_current_state, stop_recording_current_state]

/-- Claim C2: Starting from Idle, repeatedly applying the advance operation visits
Prompt, Recording, ThankYou, Idle cyclically: the n-th iterate of the phase
transition from IDLE is the n mod 4 entry of the cycle; every advance_state
call (manual via handle_events or automatic via check_state_timeout) moves the
phase along exactly the next_state edge, and those edges are
Idle to Prompt, Prompt to Recording, Recording to ThankYou, ThankYou to Idle,
with no other edge taken. -/
theorem C2_phase_cycle_closure :
    (∀ s env, ((advance_state s env).1).current_state = next_state s.current_state) ∧
    (∀ n, next_state^[n] State.IDLE = phase_cycle (n % 4)) ∧
    next_state State.IDLE = State.PROMPT ∧
    next_state State.PROMPT = State.RECORDING ∧
    next_state State.RECORDING = State.THANKYOU ∧
    next_state State.THANKYOU = State.IDLE := by
  refine ⟨advance_state_current_state, ?_, rfl, rfl, rfl, rfl⟩
  intro n
  induction n with
  | zero => rfl
  | succ n ih =>
    rw [Function.iterate_succ_apply', ih]
    have h4 : n % 4 = 0 ∨ n % 4 = 1 ∨ n % 4 = 2 ∨ n % 4 = 3 := by omega
    have hsucc : (n + 1) % 4 = (n % 4 + 1) % 4 := by omega
    rcases h4 with h | h | h | h <;> rw [hsucc, h] <;> rfl

/-!
Claim C6: the media validator contract.
-/

/-- The first component of the threaded probe is the plain validator. -/
theorem is_video_file_valid_probe_fst (store : List FileInfo) (f : FileInfo) :
    (is_video_file_valid_probe store f).1 = is_video_file_valid f := by
  rcases f with ⟨n, mp, mt, sz, op, ff, pr⟩
  unfold is_video_file_valid_probe is_video_file_valid fs_getsize cv_open
    cv_read_first
  cases pr
  · rcases Nat.lt_or_ge sz 1000 with hsz | hsz
    · simp [hsz]
    · have hns : ¬ sz < 1000 := Nat.not_lt.mpr hsz
      cases op <;> cases ff <;> simp [hns]
  · simp

/-- The threaded probe leaves the store unchanged. -/
theorem is_video_file_valid_probe_snd (store : List FileInfo) (f : FileInfo) :
    (is_video_file_valid_probe store f).2 = store := by
  rcases f with ⟨n, mp, mt, sz, op, ff, pr⟩
  unfold is_video_file_valid_probe fs_getsize cv_open cv_read_first
  cases pr
  · rcases Nat.lt_or_ge sz 1000 with hsz | hsz
    · simp [hsz]
    · have hns : ¬ sz < 1000 := Nat.not_lt.mpr hsz
      cases op <;> cases ff <;> simp [hns]
  · simp

/-- The validator accepts exactly the files meeting all three conditions. -/
theorem is_video_file_valid_iff (f : FileInfo) :
    is_video_file_valid f = true ↔
      (f.probe_raises = false ∧ 1000 ≤ f.size ∧ f.opens = true ∧
       f.first_frame_ok = true) := by
  rcases f with ⟨n, mp, mt, sz, op, ff, pr⟩
  unfold is_video_file_valid
  cases pr
  · rcases Nat.lt_or_ge sz 1000 with hsz | hsz
    · have hns : ¬ 1000 ≤ sz := Nat.not_le.mpr hsz
      simp [hsz, hns]
    · have hns : ¬ sz < 1000 := Nat.not_lt.mpr hsz
      cases op <;> cases ff <;> simp [hns, hsz]
  · simp

/-- Claim C6: for every path, is_video_file_valid returns a boolean and never
propagates an error: the probe returns true iff the size meets the 1000 byte
minimum, the container opens, and the first frame decodes; any exception
during probing yields false; and the probe leaves the recordings store
untouched (no write or delete). -/
theorem C6_validator_contract (store : List FileInfo) (f : FileInfo) :
    ((is_video_file_valid_probe store f).1 = true ↔
      (f.probe_raises = false ∧ 1000 ≤ f.size ∧ f.opens = true ∧
       f.first_frame_ok = true)) ∧
    (is_video_file_valid_probe store f).2 = store ∧
    is_video_file_valid f = (is_video_file_valid_probe store f).1 := by
  rw [is_video_file_valid_probe_fst]
  exact ⟨is_video_file_valid_iff f, is_video_file_valid_probe_snd store f, rfl⟩

/-- Witness for C6 at a concrete valid file over a concrete store. -/
theorem C6_validator_contract_witness :
    (is_video_file_valid_probe [] ⟨0, true, 0, 1500, true, true, false⟩).1 = true :=
  (C6_validator_contract [] ⟨0, true, 0, 1500, true, true, false⟩).1.mpr (by decide)

/-!
Claim C5: the library scan contract.
-/

/-- Membership in the collection loop of the scan. -/
theorem mem_scan_collect (l : List FileInfo) (f : FileInfo) :
    f ∈ scan_collect l ↔
      f ∈ l ∧ f.is_mp4 = true ∧ is_video_file_valid f = true := by
  induction l with
  | nil => simp [scan_collect]
  | cons g rest ih =>
    unfold scan_collect
    by_cases h1 : g.is_mp4 = true
    · by_cases h2 : is_video_file_valid g = true
      · rw [if_pos h1, if_pos h2]
        simp only [List.mem_cons, ih]
        constructor
        · rintro (rfl | ⟨hm, hp, hv⟩)
          · exact ⟨Or.inl rfl, h1, h2⟩
          · exact ⟨Or.inr hm, hp, hv⟩
        · rintro ⟨rfl | hm, hp, hv⟩
          · exact Or.inl rfl
          · exact Or.inr ⟨hm, hp, hv⟩
      · rw [if_pos h1, if_neg h2, ih]
        simp only [List.mem_cons]
        constructor
        · rintro ⟨hm, hp, hv⟩
          exact ⟨Or.inr hm, hp, hv⟩
        · rintro ⟨rfl | hm, hp, hv⟩
          · exact absurd hv h2
          · exact ⟨hm, hp, hv⟩
    · rw [if_neg h1, ih]
      simp only [List.mem_cons]
      constructor
      · rintro ⟨hm, hp, hv⟩
        exact ⟨Or.inr hm, hp, hv⟩
      · rintro ⟨rfl | hm, hp, hv⟩
        · exact absurd hp h1
        · exact ⟨hm, hp, hv⟩

/-- Membership in the scan result: exactly the valid mp4 files of the store. -/
theorem mem_scan_result (store : List FileInfo) (f : FileInfo) :
    f ∈ (scan_recorded_videos store).1 ↔
      f ∈ store ∧ f.is_mp4 = true ∧ is_video_file_valid f = true := by
  unfold scan_recorded_videos
  rw [(List.perm_insertionSort newer_first (scan_collect store)).mem_iff]
  exact mem_scan_collect store f

/-- Membership in the store after the scan cleanup pass. -/
theorem mem_scan_store (store : List FileInfo) (f : FileInfo) :
    f ∈ (scan_recorded_videos store).2 ↔
      f ∈ store ∧ ¬(f.is_mp4 = true ∧ is_video_file_valid f = false) := by
  unfold scan_recorded_videos
  simp only [List.mem_filter]
  constructor
  · rintro ⟨hm, hp⟩
    refine ⟨hm, ?_⟩
    rintro ⟨h1, h2⟩
    simp [h1, h2] at hp
  · rintro ⟨hm, hp⟩
    refine ⟨hm, ?_⟩
    cases hmp : f.is_mp4 <;> cases hv : is_video_file_valid f <;> simp_all

/-- Claim C5: scan returns exactly the candidate (.mp4) files of the recordings
store that pass the media validator; the result is ordered newest modification
time first (pairwise descending mtimes, so files with mtimes m1 greater than
m2 greater than m3 come out in that order); and every candidate failing
validation is deleted from the store, hence absent from the result, from the
cleaned store, and from any subsequent scan. -/
theorem C5_scan_contract (store : List FileInfo) :
    (∀ f, f ∈ (scan_recorded_videos store).1 ↔
      f ∈ store ∧ f.is_mp4 = true ∧ is_video_file_valid f = true) ∧
    ((scan_recorded_videos store).1).Pairwise (fun a b => b.mtime ≤ a.mtime) ∧
    (∀ f, f ∈ store → f.is_mp4 = true → is_video_file_valid f = false →
      f ∉ (scan_recorded_videos store).1 ∧
      f ∉ (scan_recorded_videos store).2 ∧
      f ∉ (scan_recorded_videos (scan_recorded_videos store).2).1) := by
  refine ⟨mem_scan_result store, ?_, ?_⟩
  · have hs : ((scan_recorded_videos store).1).Sorted newer_first :=
      List.sorted_insertionSort newer_first (scan_collect store)
    exact hs.imp (fun {a b} hab => by
      rcases hab with h | ⟨h, _⟩
      · exact Nat.le_of_lt h
      · exact Nat.le_of_eq h.symm)
  · intro f hmem hmp hv
    refine ⟨?_, ?_, ?_⟩
    · rw [mem_scan_result]
      rintro ⟨_, _, hval⟩
      rw [hv] at hval
      exact Bool.false_ne_true hval
    · rw [mem_scan_store]
      rintro ⟨_, hcon⟩
      exact hcon ⟨hmp, hv⟩
    · rw [mem_scan_result]
      rintro ⟨hmem2, _, _⟩
      rw [mem_scan_store] at hmem2
      exact hmem2.2 ⟨hmp, hv⟩

/-- Witness for C5: a concrete store with files of modification times 3, 1, 2
(one of them corrupt) scans to the valid ones newest first, with the corrupt
entry gone from both scans. -/
theorem C5_scan_contract_witness :
    (⟨10, true, 3, 2000, true, true, false⟩ : FileInfo) ∈
      (scan_recorded_videos
        [⟨10, true, 3, 2000, true, true, false⟩,
         ⟨11, true, 1, 500, true, true, false⟩,
         ⟨12, true, 2, 2000, true, true, false⟩]).1 ∧
    (⟨11, true, 1, 500, true, true, false⟩ : FileInfo) ∉
      (scan_recorded_videos
        [⟨10, true, 3, 2000, true, true, false⟩,
         ⟨11, true, 1, 500, true, true, false⟩,
         ⟨12, true, 2, 2000, true, true, false⟩]).2 :=
  ⟨((C5_scan_contract _).1 _).mpr (by decide),
   ((C5_scan_contract
      [⟨10, true, 3, 2000, true, true, false⟩,
       ⟨11, true, 1, 500, true, true, false⟩,
       ⟨12, true, 2, 2000, true, true, false⟩]).2.2
      ⟨11, true, 1, 500, true, true, false⟩
      (by decide) (by decide) (by decide)).2.1⟩

/-!
Claim C10: the size-threshold boundary between the validator and stop.
-/

/-- Claim C10: the validator rejects exactly the files strictly smaller than 1000
bytes (given the decode probes pass), while stop_recording requires strictly
more than 1000 bytes: a finalized output of exactly 1000 bytes is accepted by
the validator, yet stop_recording classifies it as too small, deletes it from
the store, and records the failure status. -/
theorem C10_size_threshold_boundary :
    (∀ f : FileInfo, f.size < 1000 → is_video_file_valid f = false) ∧
    (∀ f : FileInfo, is_video_file_valid f = true → 1000 ≤ f.size) ∧
    is_video_file_valid C10_file = true ∧
    is_video_file_valid { C10_file with size := 999 } = false ∧
    ((stop_recording C10_s env0).1).recording_status = RecStatus.TooSmall ∧
    Event.remove 100 ∈ (stop_recording C10_s env0).2 ∧
    lookup_file ((stop_recording C10_s env0).1).store 100 = none := by
  refine ⟨?_, ?_, by decide, by decide, by decide, by decide, by decide⟩
  · intro f h
    cases hval : is_video_file_valid f
    · rfl
    · have := ((is_video_file_valid_iff f).mp hval).2.1
      omega
  · intro f hv
    exact ((is_video_file_valid_iff f).mp hv).2.1

/-- Witness for C10 at a concrete 999 byte file. -/
theorem C10_size_threshold_boundary_witness :
    is_video_file_valid ⟨3, true, 0, 999, true, true, false⟩ = false :=
  C10_size_threshold_boundary.1 ⟨3, true, 0, 999, true, true, false⟩ (by decide)

/-!
Claim C7: idempotence of the two stop operations with no active session.
-/

/-- Counterexample to C7 as stated: with no recording session active and
recording_status Ready, stop_recording overwrites the status field with the
no-file-created failure message, so the state does not stay unchanged. -/
theorem C7_stop_counterexample :
    sys0.recording_process = none ∧
    sys0.current_recording_path = none ∧
    sys0.recording_status = RecStatus.Ready ∧
    ((stop_recording sys0 env0).1).recording_status =
      RecStatus.NoFileProduced ∧
    (stop_recording sys0 env0).1 ≠ sys0 := by
  refine ⟨rfl, rfl, rfl, by decide, by decide⟩

/-- Claim C7, amended: with no active session, stop on the playback synchronizer
produces no error, emits no process events and leaves the state unchanged;
stop on the recording controller produces no error and emits no events, leaves
the session handle and path unchanged, but clears the early-finish flag and
overwrites recording_status with the no-file-created failure status. -/
theorem C7_stop_idempotent_amended :
    (∀ (s : Sys) (env : Env), s.playback_cap = none → s.audio_process = none →
      s.current_playback_video = none → s.video_start_time = none →
      stop_current_playback s env = (s, [])) ∧
    (∀ (s : Sys) (env : Env), s.recording_process = none →
      s.current_recording_path = none →
      stop_recording s env =
        ({ s with can_finish_early := false,
                  recording_status := RecStatus.NoFileProduced }, [])) := by
  constructor
  · intro s env h1 h2 h3 h4
    rw [stop_current_playback_eq, h2]
    refine Prod.ext ?_ rfl
    ext <;> simp [h1, h2, h3, h4]
  · intro s env h1 h2
    unfold stop_recording
    simp only [h1, h2]

/-- Witness for C7 amended: stopping playback on the fresh state changes
nothing and stopping recording on it yields the failure status. -/
theorem C7_stop_idempotent_amended_witness :
    stop_current_playback sys0 env0 = (sys0, []) ∧
    stop_recording sys0 env0 =
      ({ sys0 with can_finish_early := false,
                   recording_status := RecStatus.NoFileProduced }, []) :=
  ⟨C7_stop_idempotent_amended.1 sys0 env0 rfl rfl rfl rfl,
   C7_stop_idempotent_amended.2 sys0 env0 rfl rfl⟩

/-!
Claim C1: start while a recording session is running.
-/

/-- Counterexample to C1 as stated: calling start_recording while session
handle 7 is running is not a no-op returning the existing handle: a second
capture process (handle 8) is launched, and both the stored handle and the
target path are replaced. -/
theorem C1_start_counterexample :
    C1_s.recording_process = some 7 ∧
    C1_s.current_recording_path = some 50 ∧
    ((start_recording C1_s C1_env).2.1).recording_process = some 8 ∧
    ((start_recording C1_s C1_env).2.1).current_recording_path = some 51 ∧
    (start_recording C1_s C1_env).2.2 = [Event.popen 8] := by
  refine ⟨rfl, rfl, by decide, by decide, by decide⟩

/-- Claim C1, amended: whenever the camera is available and the new ffmpeg process
survives the grace interval, start_recording launches a fresh capture process
and overwrites the session's handle and target path with the new ones,
regardless of any recording session already running; the prior handle is
dropped without being terminated (no terminate or kill event is emitted). -/
theorem C1_start_while_running_amended (s : Sys) (env : Env)
    (hcam : s.camera.isSome = true)
    (hgr : env.ffmpeg_survives_grace = true) :
    (start_recording s env).1 = true ∧
    ((start_recording s env).2.1).recording_process = some env.ffmpeg_handle ∧
    ((start_recording s env).2.1).current_recording_path =
      some env.timestamp_path ∧
    ((start_recording s env).2.1).can_finish_early = true ∧
    (start_recording s env).2.2 = [Event.popen env.ffmpeg_handle] := by
  unfold start_recording start_ffmpeg_recording setup_camera
  simp [hcam, hgr]

/-- Witness for C1 amended at the running-session state C1_s. -/
theorem C1_start_while_running_amended_witness :
    ((start_recording C1_s C1_env).2.1).recording_process =
      some C1_env.ffmpeg_handle ∧
    (start_recording C1_s C1_env).2.2 = [Event.popen C1_env.ffmpeg_handle] :=
  ⟨(C1_start_while_running_amended C1_s C1_env (by decide) (by decide)).2.1,
   (C1_start_while_running_amended C1_s C1_env (by decide) (by decide)).2.2.2.2⟩

/-!
Claim C3: the manual reset signal.
-/

/-- Counterexample to C3 as stated: a manual reset with a playback session in
flight does not cancel or clean up that session: the decode stream and the
live audio process handle are left exactly as they were and no termination
event is emitted. -/
theorem C3_reset_counterexample :
    C3_s.audio_process = some 5 ∧
    C3_s.playback_cap = some ⟨40, 5⟩ ∧
    ((handle_key C3_s env0 Key.K_r).2.1).audio_process = some 5 ∧
    ((handle_key C3_s env0 Key.K_r).2.1).playback_cap = some ⟨40, 5⟩ ∧
    ((handle_key C3_s env0 Key.K_r).2.1).current_playback_video = some 40 ∧
    (handle_key C3_s env0 Key.K_r).2.2 = [] := by
  refine ⟨rfl, rfl, by decide, by decide, by decide, by decide⟩

/-- Claim C3, amended: from every phase, the manual reset forces the state machine
back to Idle and clears the early-finish flag; an in-progress recording is
stopped via stop_recording (the capture handle is released and receives the
graceful termination signal, so the partial file is validated or discarded and
the capture process is not orphaned); but an in-flight playback session is not
cleaned up: its decode stream, session path and audio handle are left
untouched by the reset. -/
theorem C3_reset_amended (s : Sys) (env : Env) :
    ((handle_key s env Key.K_r).2.1).current_state = State.IDLE ∧
    ((handle_key s env Key.K_r).2.1).can_finish_early = false ∧
    ((handle_key s env Key.K_r).2.1).recording_process = none ∧
    (∀ h, s.recording_process = some h →
      Event.terminate h ∈ (handle_key s env Key.K_r).2.2) ∧
    ((handle_key s env Key.K_r).2.1).audio_process = s.audio_process ∧
    ((handle_key s env Key.K_r).2.1).playback_cap = s.playback_cap ∧
    ((handle_key s env Key.K_r).2.1).current_playback_video =
      s.current_playback_video := by
  cases hrp : s.recording_process with
  | none =>
    unfold handle_key
    simp [hrp]
  | some h0 =>
    have hterm := stop_recording_terminates s env h0 hrp
    have hap := stop_recording_audio_process s env
    have hpc := stop_recording_playback_cap s env
    have hpv := stop_recording_playback_video s env
    have hrpn := stop_recording_process_none s env
    unfold handle_key
    rcases hsr : stop_recording s env with ⟨s1, evs1⟩
    rw [hsr] at hterm hap hpc hpv hrpn
    refine ⟨?_, ?_, ?_, ?_, ?_, ?_, ?_⟩
    · simp [hrp, hsr]
    · simp [hrp, hsr]
    · simpa [hrp, hsr] using hrpn
    · intro h hh
      injection hh with hh
      subst hh
      simpa [hrp, hsr] using hterm
    · simpa [hrp, hsr] using hap
    · simpa [hrp, hsr] using hpc
    · simpa [hrp, hsr] using hpv

/-- Witness for C3 amended at a state with a live recording handle 7. -/
theorem C3_reset_amended_witness :
    Event.terminate 7 ∈ (handle_key C1_s env0 Key.K_r).2.2 ∧
    ((handle_key C1_s env0 Key.K_r).2.1).current_state = State.IDLE :=
  ⟨(C3_reset_amended C1_s env0).2.2.2.1 7 rfl, (C3_reset_amended C1_s env0).1⟩

/-!
Claim C8: the playback sync decision.
-/

/-- Claim C8: for an active session (playback started no later than now, with a
nonnegative frame rate), the target frame index is
floor of (now - playbackStart) * frameRate; when the decoder lags the target
by more than 5 frames the decision is to seek forward to the target; when the
decoder is ahead of the target by more than one frame the decision is to
return the cached frame, and get_playback_frame_core then returns
last_playback_frame without reading; otherwise the decision is to decode the
next frame. -/
theorem C8_sync_decision (now start fps : ℚ) (current : ℤ)
    (hts : start ≤ now) (hfps : 0 ≤ fps) :
    playback_target_frame now start fps = ⌊(now - start) * fps⌋ ∧
    (playback_target_frame now start fps - current > 5 →
      playback_frame_action (playback_target_frame now start fps) current =
        FrameAction.seekRead (playback_target_frame now start fps)) ∧
    (current - playback_target_frame now start fps > 1 →
      playback_frame_action (playback_target_frame now start fps) current =
        FrameAction.returnCached) ∧
    (playback_target_frame now start fps - current ≤ 5 →
      current - playback_target_frame now start fps ≤ 1 →
      playback_frame_action (playback_target_frame now start fps) current =
        FrameAction.readNext) ∧
    (∀ (s : Sys) (env : Env) (evs : List Event) (cap : Cap) (st : ℚ),
      s.playback_cap = some cap → s.video_start_time = some st →
      playback_frame_action (playback_target_frame env.now st s.video_fps)
        (cap.pos : ℤ) = FrameAction.returnCached →
      get_playback_frame_core s env evs = (s.last_playback_frame, s, evs)) := by
  have hnn : (0 : ℚ) ≤ (now - start) * fps :=
    mul_nonneg (sub_nonneg.mpr hts) hfps
  refine ⟨?_, ?_, ?_, ?_, ?_⟩
  · unfold playback_target_frame pyint
    rw [if_pos hnn]
  · intro hlag
    unfold playback_frame_action
    rw [if_pos (by omega)]
  · intro hahead
    unfold playback_frame_action
    rw [if_neg (by omega), if_pos (by omega)]
  · intro hl ha
    unfold playback_frame_action
    rw [if_neg (by omega), if_neg (by omega)]
  · intro s env evs cap st hcap hst hact
    unfold get_playback_frame_core
    simp only [hcap, hst, hact]

/-- Witness for C8: one second into a 30 fps session with the decoder still at
frame 0, the target is frame 30 and the decision is to seek. -/
theorem C8_sync_decision_witness :
    playback_target_frame 2 1 30 = ⌊((2 : ℚ) - 1) * 30⌋ ∧
    playback_frame_action (playback_target_frame 2 1 30) 0 =
      FrameAction.seekRead (playback_target_frame 2 1 30) :=
  ⟨(C8_sync_decision 2 1 30 0 (by norm_num) (by norm_num)).1,
   (C8_sync_decision 2 1 30 0 (by norm_num) (by norm_num)).2.1
     (by norm_num [playback_target_frame, pyint])⟩

/-!
Claim C9: where the horizontal mirror is applied.
-/

/-- Counterexample to C9 as stated: the frame returned for stored-video
playback is the horizontally flipped decoded frame run through the shared
post-processing, and it differs from the same decoded frame post-processed
without the flip, so playback frames are mirrored too. -/
theorem C9_playback_mirror_counterexample :
    (get_current_playback_frame C9_s C9_env).1 =
      some (postprocess (hflip [[(1, 2, 3), (4, 5, 6)]])) ∧
    postprocess (hflip [[(1, 2, 3), (4, 5, 6)]]) ≠
      postprocess [[(1, 2, 3), (4, 5, 6)]] := by
  refine ⟨?_, by decide⟩
  unfold get_current_playback_frame get_playback_frame_core read_and_return
  simp [C9_s, C9_env, sys0, env0, playback_target_frame, pyint,
    playback_frame_action]

/-- Claim C9, amended: the horizontal-mirror transform is applied both to live
camera preview frames and to frames decoded from stored recordings during
idle playback: every successfully decoded playback frame is returned as the
post-processed horizontal flip of the decoded frame, exactly like the camera
preview path. -/
theorem C9_mirror_amended :
    (∀ (s : Sys) (env : Env) (f : Frame), s.camera.isSome = true →
      env.camera_read = some f →
      get_camera_frame_for_display s env = some (postprocess (hflip f))) ∧
    (∀ (s : Sys) (env : Env) (p pos : ℕ) (evs : List Event) (d : Frame),
      env.read_frame p pos = some d →
      (read_and_return s p pos env evs).1 = some (postprocess (hflip d))) := by
  constructor
  · intro s env f hcam hread
    unfold get_camera_frame_for_display
    have : s.camera.isNone = false := by
      cases h : s.camera
      · rw [h] at hcam; exact absurd hcam (by decide)
      · rfl
    simp [this, hread]
  · intro s env p pos evs d hread
    unfold read_and_return
    simp [hread]

/-- Witness for C9 amended at the concrete decode environment. -/
theorem C9_mirror_amended_witness :
    (read_and_return sys0 10 0 C9_env []).1 =
      some (postprocess (hflip [[(1, 2, 3), (4, 5, 6)]])) :=
  C9_mirror_amended.2 sys0 C9_env 10 0 [] [[(1, 2, 3), (4, 5, 6)]] (by decide)

/-!
Claim C4: a single library advance per polling tick.
-/

/-- At the instant a session starts, the target frame index is 0. -/
theorem playback_target_frame_self (x fps : ℚ) :
    playback_target_frame x x fps = 0 := by
  simp [playback_target_frame, pyint]

/-- switch_to_next_video characterized on an unguarded state: the session
fields are cleared and the index advances once, modulo the library length. -/
theorem switch_to_next_video_eq (s : Sys) (env : Env)
    (hne : s.recorded_videos ≠ []) (hsw : s.switching_video = false) :
    switch_to_next_video s env =
      ({ s with playback_cap := none, audio_process := none,
                current_playback_video := none, video_start_time := none,
                current_playback_index :=
                  (s.current_playback_index + 1) % s.recorded_videos.length,
                switching_video := false },
       match s.audio_process with
       | some h =>
         if env.audio_wait_ok then [Event.terminate h]
         else [Event.terminate h, Event.kill h]
       | none => []) := by
  have hie : s.recorded_videos.isEmpty = false := by
    cases h : s.recorded_videos
    · exact absurd h hne
    · rfl
  unfold switch_to_next_video
  simp only [hie, hsw, Bool.or_self, Bool.false_eq_true, if_false]
  rw [stop_current_playback_eq]

/-- Reading the first frame of a just-started session leaves the library
index unchanged. -/
theorem get_playback_frame_core_first_read (s : Sys) (env : Env)
    (evs : List Event) (p : ℕ)
    (hcap : s.playback_cap = some ⟨p, 0⟩)
    (hvst : s.video_start_time = some env.now)
    (hrd : env.read_frame p 0 ≠ none) :
    ((get_playback_frame_core s env evs).2.1).current_playback_index =
      s.current_playback_index := by
  unfold get_playback_frame_core
  rw [hcap, hvst]
  simp only [playback_target_frame_self]
  have hact : playback_frame_action 0 ((Cap.mk p 0).pos : ℤ) =
      FrameAction.readNext := rfl
  rw [hact]
  unfold read_and_return
  cases hr : env.read_frame p 0
  · exact absurd hr hrd
  · simp

/-- Starting playback of the video at the current index (because no video is
playing) never changes the library index, whether or not the start succeeds,
as long as the first read of the started video is not end-of-stream. -/
theorem get_current_playback_frame_fresh_index (t : Sys) (env : Env)
    (hne : t.recorded_videos ≠ [])
    (hsw : t.switching_video = false)
    (hcpv : t.current_playback_video = none)
    (haud : t.audio_process = none)
    (hread : env.read_frame
      (t.recorded_videos.getD t.current_playback_index 0) 0 ≠ none) :
    ((get_current_playback_frame t env).2.1).current_playback_index =
      t.current_playback_index := by
  have hie : t.recorded_videos.isEmpty = false := by
    cases h : t.recorded_videos
    · exact absurd h hne
    · rfl
  unfold get_current_playback_frame
  simp only [hie, hsw, Bool.or_self, Bool.false_eq_true, if_false, hcpv,
    Option.isNone_none, if_true]
  unfold start_video_playback
  cases hlk : lookup_file t.store
      (t.recorded_videos.getD t.current_playback_index 0) with
  | none => simp
  | some f =>
    cases hv : is_video_file_valid f with
    | false => simp [hv]
    | true =>
      rw [stop_current_playback_eq]
      simp only [hv, haud, Bool.not_true, Bool.false_eq_true, if_false]
      cases hop : f.opens with
      | false => simp [hop]
      | true =>
        simp only [hop, Bool.not_true, Bool.false_eq_true, if_false]
        cases has : env.audio_starts with
        | false =>
          simp only [Bool.false_eq_true, if_false]
          rw [get_playback_frame_core_first_read _ env _ _ rfl rfl hread]
        | true =>
          simp only [if_true]
          rw [get_playback_frame_core_first_read _ env _ _ rfl rfl hread]

/-- Claim C4: within one polling tick of the IDLE render loop over a non-empty
library, when the audio-ended signal fires (and the first read of the next
video is not an immediate end-of-stream, as when video end-of-stream for the
old file fires in the same tick), the library index advances exactly once,
modulo the library length; and a switch_to_next_video call that finds the
switching flag set is a no-op, which is what guards against a re-entrant
second advance. -/
theorem C4_single_advance_per_tick (s : Sys) (env : Env) (h0 : ℕ)
    (hne : s.recorded_videos ≠ [])
    (hsw : s.switching_video = false)
    (haud : s.audio_process = some h0)
    (hex : env.audio_exited h0 = true)
    (hread : env.read_frame
      (s.recorded_videos.getD
        ((s.current_playback_index + 1) % s.recorded_videos.length) 0) 0 ≠
      none) :
    ((idle_tick s env).2.1).current_playback_index =
      (s.current_playback_index + 1) % s.recorded_videos.length ∧
    (∀ (t : Sys) (env2 : Env), t.switching_video = true →
      switch_to_next_video t env2 = (t, [])) := by
  constructor
  · unfold idle_tick check_if_video_ended
    rw [haud]
    simp only [hex, if_true]
    rw [switch_to_next_video_eq s env hne hsw]
    dsimp only
    have hidx := get_current_playback_frame_fresh_index
      { s with playback_cap := none, audio_process := none,
               current_playback_video := none, video_start_time := none,
               current_playback_index :=
                 (s.current_playback_index + 1) % s.recorded_videos.length,
               switching_video := false } env hne rfl rfl rfl hread
    rcases hgc : get_current_playback_frame
      { s with playback_cap := none, audio_process := none,
               current_playback_video := none, video_start_time := none,
               current_playback_index :=
                 (s.current_playback_index + 1) % s.recorded_videos.length,
               switching_video := false } env with ⟨fr, s2, evs2⟩
    rw [hgc] at hidx
    exact hidx
  · intro t env2 hsw2
    unfold switch_to_next_video
    simp [hsw2]

/-- Witness for C4: a two-file library playing file 10 whose audio channel
has exited advances from index 0 to index 1 in one tick. -/
theorem C4_single_advance_per_tick_witness :
    ((idle_tick
      { sys0 with recorded_videos := [10, 20],
                  store := [⟨10, true, 1, 2000, true, true, false⟩,
                            ⟨20, true, 2, 2000, true, true, false⟩],
                  current_playback_video := some 10,
                  playback_cap := some ⟨10, 3⟩,
                  audio_process := some 5,
                  video_start_time := some 0 }
      { env0 with audio_exited := fun _ => true,
                  read_frame := fun _ _ => some [[(1, 2, 3)]] }).2.1
        ).current_playback_index = (0 + 1) % 2 :=
  (C4_single_advance_per_tick _ _ 5 (by decide) rfl rfl rfl (by decide)).1

end HomeInstallation
